import Mathlib

/-!
Verification development for the HelloBot repository: a conversation
orchestration engine (slot-filling controller, conversation store, data
source router, reasoning engine adapter) fronted by a Node gateway and a
React UI.  The gateway (src/api-gateway/src/index.js), the SQL orders seed
and the UI are embedded from the source; the Python orchestration service
is not part of the source tree, so its behaviour is modelled from the
specification where noted.
-/

namespace HelloBot

/-- Association lookup on a list of key/value pairs, first match wins
(the shape used for slot maps, store rows and the conversation arena). -/
def alookup {β : Type} : List (String × β) → String → Option β
  | [], _ => none
  | kv :: rest, k => if kv.1 = k then some kv.2 else alookup rest k

/-- Insert or replace the first binding of a key, appending when absent
(atomic replace, last-writer-wins per key). -/
def upsertA {β : Type} : List (String × β) → String → β → List (String × β)
  | [], k, v => [(k, v)]
  | kv :: rest, k, v => if kv.1 = k then (k, v) :: rest else kv :: upsertA rest k v

theorem alookup_upsertA {β : Type} (l : List (String × β)) (k0 : String) (v : β)
    (k : String) :
    alookup (upsertA l k0 v) k = if k = k0 then some v else alookup l k := by
  induction l with
  | nil =>
    by_cases h : k = k0
    · simp [alookup, upsertA, h]
    · have h2 : ¬ k0 = k := fun hh => h hh.symm
      simp [alookup, upsertA, h, h2]
  | cons kv rest ih =>
    simp only [upsertA]
    by_cases h1 : kv.1 = k0
    · simp only [if_pos h1]
      by_cases h2 : k = k0
      · simp [alookup, h2]
      · have h3 : ¬ k0 = k := fun hh => h2 hh.symm
        have h4 : ¬ kv.1 = k := by rw [h1]; exact h3
        simp [alookup, h2, h3, h4]
    · simp only [if_neg h1]
      by_cases h2 : kv.1 = k
      · have hk : ¬ k = k0 := fun hh => h1 (h2.trans hh)
        simp [alookup, h2, hk]
      · simp [alookup, h2, ih]

theorem alookup_filter_key {β : Type} (q : String → Bool)
    (l : List (String × β)) (k : String) :
    alookup (l.filter (fun kv => q kv.1)) k
      = if q k then alookup l k else none := by
  induction l with
  | nil => by_cases h : q k <;> simp [alookup, h]
  | cons kv rest ih =>
    by_cases hq : q kv.1
    · by_cases hk : kv.1 = k
      · subst hk
        simp [alookup, hq, ih]
      · simp [alookup, hq, hk, ih]
    · by_cases hk : kv.1 = k
      · subst hk
        simp [alookup, hq, ih, List.filter]
      · simp [alookup, hq, hk, ih, List.filter]

/-! ## Data model

Modelled from the spec (sections 3 and 4.4): the Python orchestration
service holding these types is not in the source tree.  Timestamps
(Message.timestamp, Conversation.lastUpdated) are wall-clock data and are
omitted from the embedding. -/

inductive Role
  | user
  | assistant
deriving DecidableEq, Repr

structure Message where
  role : Role
  content : String
deriving DecidableEq, Repr

inductive Status
  | AWAITING_INTENT
  | AWAITING_SLOT
  | READY_TO_EXECUTE
  | COMPLETE
deriving DecidableEq, Repr

inductive DataSource
  | transactional
  | knowledge
deriving DecidableEq, Repr

/-- Modelled from the spec: an intent definition with its ordered required
slots and backing data source.  The queryTemplate of the spec is modelled
as `queryKey`, the slot name whose filled value keys the store lookup. -/
structure IntentDefinition where
  name : String
  requiredSlots : List String
  dataSource : DataSource
  queryKey : String
deriving DecidableEq, Repr

/-- Modelled from the spec: one conversation record, owned by the
Conversation Store. -/
structure Conversation where
  id : String
  turns : List Message
  slots : List (String × String)
  activeIntent : Option IntentDefinition
  pendingSlot : Option String
  status : Status
deriving DecidableEq, Repr

/-- A normalized record returned by a backing store. -/
abbrev Record := List (String × String)

/-- Modelled from the spec: result of parsing the reasoning engine output
for EXTRACT_INTENT at the adapter boundary — a structured intent name plus
a set of already-known slot values. -/
structure IntentExtraction where
  intent : IntentDefinition
  knownSlots : List (String × String)
deriving Repr

/-- Modelled from the spec: outcome of the EXTRACT_INTENT adapter call —
a parsed extraction, an ambiguous text with no determinable intent, a
bounded-wait timeout, or an unparseable response. -/
inductive ExtractResult
  | intent (e : IntentExtraction)
  | noIntent
  | timeout
  | malformed
deriving Repr

/-- Modelled from the spec: outcome of a text-producing adapter call
(GENERATE_SLOT_PROMPT or FRAME_ANSWER). -/
inductive TextResult
  | ok (t : String)
  | timeout
deriving DecidableEq, Repr

/-- Modelled from the spec: what FRAME_ANSWER is invoked over — a found
record, or an explicit no-data marker. -/
inductive FramingData
  | record (r : Record)
  | noData
deriving DecidableEq, Repr

/-- Modelled from the spec: router outcome — a found record, the valid
NotFound outcome, or SourceUnavailable after the single bounded retry. -/
inductive FetchResult
  | found (r : Record)
  | notFound
  | sourceUnavailable
deriving DecidableEq, Repr

/-- Modelled from the spec: the external collaborators of one
orchestration cycle, as oracles — the reasoning engine responses and the
availability of the backing store on each of the two fetch attempts. -/
structure CycleEnv where
  extract : ExtractResult
  slotPrompt : String → TextResult
  clarify : TextResult
  avail1 : Bool
  avail2 : Bool
  frame : FramingData → TextResult

/-- The two backing stores: transactional rows keyed by identifier,
knowledge documents keyed by attribute value. -/
structure Stores where
  transactional : List (String × Record)
  knowledge : List (String × Record)

/-- Modelled from the spec: the generic failure response returned to the
caller whenever an adapter or router failure aborts the cycle. -/
def genericApology : String := "Sorry, something went wrong."

/-- Modelled from the spec (section 4.3): dispatch a read to the correct
backing store, keyed by the filled slot named by the intent. -/
def routeLookup (stores : Stores) (intent : IntentDefinition)
    (slots : List (String × String)) : Option Record :=
  match alookup slots intent.queryKey with
  | none => none
  | some keyVal =>
    match intent.dataSource with
    | DataSource.transactional => alookup stores.transactional keyVal
    | DataSource.knowledge => alookup stores.knowledge keyVal

/-- Modelled from the spec (section 4.3): SourceUnavailable is retried
once before being surfaced; NotFound is a valid outcome, not an error. -/
def fetchWithRetry (avail1 avail2 : Bool) (res : Option Record) : FetchResult :=
  if avail1 then
    match res with
    | some r => FetchResult.found r
    | none => FetchResult.notFound
  else if avail2 then
    match res with
    | some r => FetchResult.found r
    | none => FetchResult.notFound
  else FetchResult.sourceUnavailable

/-- Whether the extracted intent differs from the active one (new topic). -/
def intentChanged (conv : Conversation) (newIntent : IntentDefinition) : Bool :=
  match conv.activeIntent with
  | none => true
  | some a => if a.name = newIntent.name then false else true

/-- Fold a batch of newly known slot values into the slot map. -/
def mergeSlots (base : List (String × String)) (new : List (String × String)) :
    List (String × String) :=
  new.foldl (fun acc kv => upsertA acc kv.1 kv.2) base

/-- Modelled from the spec (section 4.4 steps 2 and 4): on an intent
change keep only slots named by the new intent and reset the rest; then
write the slot values identified by extraction, restricted to the required
slots of the intent. -/
def slotsAfterExtract (conv : Conversation) (e : IntentExtraction) :
    List (String × String) :=
  mergeSlots
    (if intentChanged conv e.intent then
      conv.slots.filter (fun kv => e.intent.requiredSlots.contains kv.1)
    else conv.slots)
    (e.knownSlots.filter (fun kv => e.intent.requiredSlots.contains kv.1))

/-- The required slots still unfilled, in requiredSlots order. -/
def missingSlots (intent : IntentDefinition) (slots : List (String × String)) :
    List String :=
  intent.requiredSlots.filter (fun s => (alookup slots s).isNone)

/-- Modelled from the spec: one cycle outcome — a completed mutation to
persist plus the response text, or an aborted cycle whose response is the
generic apology and whose mutation is discarded. -/
inductive CycleOutcome
  | ok (conv : Conversation) (response : String)
  | failed (response : String)
deriving DecidableEq, Repr

def userMsg (t : String) : Message := ⟨Role.user, t⟩

def assistantMsg (t : String) : Message := ⟨Role.assistant, t⟩

/-- Modelled from the spec (section 4.4 tie-break policy): ambiguous text
yields a clarification prompt without mutating slots or advancing status. -/
def clarifyStep (env : CycleEnv) (conv : Conversation) (msg : String) : CycleOutcome :=
  match env.clarify with
  | TextResult.timeout => CycleOutcome.failed genericApology
  | TextResult.ok t =>
    CycleOutcome.ok
      { conv with turns := conv.turns ++ [userMsg msg, assistantMsg t] } t

/-- Modelled from the spec (section 4.4 step 3): ask for the first missing
slot, enter AWAITING_SLOT, end the cycle without data retrieval. -/
def promptStep (env : CycleEnv) (conv : Conversation) (msg : String)
    (e : IntentExtraction) (s2 : List (String × String)) (s : String) : CycleOutcome :=
  match env.slotPrompt s with
  | TextResult.timeout => CycleOutcome.failed genericApology
  | TextResult.ok t =>
    CycleOutcome.ok
      { conv with
        turns := conv.turns ++ [userMsg msg, assistantMsg t]
        slots := s2
        activeIntent := some e.intent
        pendingSlot := some s
        status := Status.AWAITING_SLOT } t

/-- Modelled from the spec (section 4.4 steps 6 and 7): frame the answer
over the retrieved data or the no-data marker and complete the cycle. -/
def frameStep (env : CycleEnv) (conv : Conversation) (msg : String)
    (e : IntentExtraction) (s2 : List (String × String)) (d : FramingData) : CycleOutcome :=
  match env.frame d with
  | TextResult.timeout => CycleOutcome.failed genericApology
  | TextResult.ok t =>
    CycleOutcome.ok
      { conv with
        turns := conv.turns ++ [userMsg msg, assistantMsg t]
        slots := s2
        activeIntent := some e.intent
        pendingSlot := none
        status := Status.COMPLETE } t

/-- Modelled from the spec (section 4.4 steps 5 and 6): with all required
slots present, fetch through the router and frame found data or absence. -/
def executeStep (env : CycleEnv) (stores : Stores) (conv : Conversation)
    (msg : String) (e : IntentExtraction) (s2 : List (String × String)) : CycleOutcome :=
  match fetchWithRetry env.avail1 env.avail2 (routeLookup stores e.intent s2) with
  | FetchResult.sourceUnavailable => CycleOutcome.failed genericApology
  | FetchResult.found r => frameStep env conv msg e s2 (FramingData.record r)
  | FetchResult.notFound => frameStep env conv msg e s2 FramingData.noData

/-- Modelled from the spec (section 4.4 steps 2 to 7): handle a parsed
intent extraction. -/
def intentStep (env : CycleEnv) (stores : Stores) (conv : Conversation)
    (msg : String) (e : IntentExtraction) : CycleOutcome :=
  match missingSlots e.intent (slotsAfterExtract conv e) with
  | s :: _ => promptStep env conv msg e (slotsAfterExtract conv e) s
  | [] => executeStep env stores conv msg e (slotsAfterExtract conv e)

/-- Modelled from the spec (section 4.4): one full orchestration cycle
over an incoming user message.  Adapter failures (timeout, malformed)
abort the cycle with the generic apology. -/
def runCycle (env : CycleEnv) (stores : Stores) (conv : Conversation)
    (msg : String) : CycleOutcome :=
  match env.extract with
  | ExtractResult.timeout => CycleOutcome.failed genericApology
  | ExtractResult.malformed => CycleOutcome.failed genericApology
  | ExtractResult.noIntent => clarifyStep env conv msg
  | ExtractResult.intent e => intentStep env stores conv msg e

/-! ## Conversation store -/

/-- The Conversation Store arena: one record per conversation id. -/
abbrev Store := List (String × Conversation)

/-- Modelled from the spec (section 4.1): load creates a fresh
conversation with status AWAITING_INTENT when the id is absent. -/
def freshConversation (id : String) : Conversation :=
  { id := id, turns := [], slots := [], activeIntent := none
    pendingSlot := none, status := Status.AWAITING_INTENT }

def load (store : Store) (id : String) : Conversation :=
  match alookup store id with
  | some c => c
  | none => freshConversation id

/-- Modelled from the spec: the controller persists the completed
mutation under the conversation id; a failed cycle persists nothing and
answers with the failure response. -/
def handleMessage (env : CycleEnv) (stores : Stores) (store : Store)
    (id : String) (msg : String) : Store × String :=
  match runCycle env stores (load store id) msg with
  | CycleOutcome.ok conv response => (upsertA store id conv, response)
  | CycleOutcome.failed response => (store, response)

/-! ## Lemmas about slot maps -/

theorem alookup_mergeSlots_isSome (new : List (String × String))
    (base : List (String × String)) (k : String) :
    (alookup (mergeSlots base new) k).isSome
      = ((alookup base k).isSome || (new.map Prod.fst).contains k) := by
  induction new generalizing base with
  | nil => simp [mergeSlots]
  | cons kv rest ih =>
    have hstep : mergeSlots base (kv :: rest) = mergeSlots (upsertA base kv.1 kv.2) rest := rfl
    rw [hstep, ih, alookup_upsertA]
    by_cases h : k = kv.1
    · simp [h]
    · have hb : (k == kv.1) = false := by simp [h]
      simp [h, hb]

theorem contains_map_fst_filter (q : String → Bool) (l : List (String × String))
    (k : String)
    (h : ((l.filter (fun kv => q kv.1)).map Prod.fst).contains k = true) :
    q k = true := by
  induction l with
  | nil => simp at h
  | cons kv rest ih =>
    by_cases hq : q kv.1
    · rw [List.filter_cons_of_pos (by simpa using hq)] at h
      simp only [List.map_cons, List.contains_cons] at h
      rcases Bool.or_eq_true_iff.mp h with h1 | h1
      · have : k = kv.1 := by simpa using h1
        rw [this]; exact hq
      · exact ih h1
    · rw [List.filter_cons_of_neg (by simpa using hq)] at h
      exact ih h

theorem slotsAfterExtract_keeps (conv : Conversation) (e : IntentExtraction)
    (k : String) (hfilled : (alookup conv.slots k).isSome = true) :
    (alookup (slotsAfterExtract conv e) k).isSome
      = (if intentChanged conv e.intent then e.intent.requiredSlots.contains k
         else true) := by
  unfold slotsAfterExtract
  cases hch : intentChanged conv e.intent with
  | true =>
    rw [if_pos rfl, if_pos rfl, alookup_mergeSlots_isSome,
      alookup_filter_key (fun s => e.intent.requiredSlots.contains s)]
    by_cases hq : k ∈ e.intent.requiredSlots
    · simp [hq, hfilled]
    · have hnc : k ∉ (e.knownSlots.filter
          (fun kv => e.intent.requiredSlots.contains kv.1)).map Prod.fst := by
        intro hmem
        rcases List.mem_map.mp hmem with ⟨kv, hkv, hfst⟩
        rcases List.mem_filter.mp hkv with ⟨hmem2, hdec⟩
        exact hq (hfst ▸ (by simpa using hdec))
      simp [hq, hnc]
  | false =>
    rw [if_neg (by simp), if_neg (by simp), alookup_mergeSlots_isSome]
    simp [hfilled]

/-! ## Lemmas about one orchestration cycle -/

theorem clarifyStep_failed (env : CycleEnv) (conv : Conversation) (msg : String)
    (r : String) (h : clarifyStep env conv msg = CycleOutcome.failed r) :
    r = genericApology := by
  unfold clarifyStep at h
  split at h <;> simp_all

theorem promptStep_failed (env : CycleEnv) (conv : Conversation) (msg : String)
    (e : IntentExtraction) (s2 : List (String × String)) (s : String) (r : String)
    (h : promptStep env conv msg e s2 s = CycleOutcome.failed r) :
    r = genericApology := by
  unfold promptStep at h
  split at h <;> simp_all

theorem frameStep_failed (env : CycleEnv) (conv : Conversation) (msg : String)
    (e : IntentExtraction) (s2 : List (String × String)) (d : FramingData) (r : String)
    (h : frameStep env conv msg e s2 d = CycleOutcome.failed r) :
    r = genericApology := by
  unfold frameStep at h
  split at h <;> simp_all

theorem executeStep_failed (env : CycleEnv) (stores : Stores) (conv : Conversation)
    (msg : String) (e : IntentExtraction) (s2 : List (String × String)) (r : String)
    (h : executeStep env stores conv msg e s2 = CycleOutcome.failed r) :
    r = genericApology := by
  unfold executeStep at h
  split at h
  · simp_all
  · exact frameStep_failed _ _ _ _ _ _ _ h
  · exact frameStep_failed _ _ _ _ _ _ _ h

theorem intentStep_failed (env : CycleEnv) (stores : Stores) (conv : Conversation)
    (msg : String) (e : IntentExtraction) (r : String)
    (h : intentStep env stores conv msg e = CycleOutcome.failed r) :
    r = genericApology := by
  unfold intentStep at h
  split at h
  · exact promptStep_failed _ _ _ _ _ _ _ h
  · exact executeStep_failed _ _ _ _ _ _ _ h

theorem runCycle_failed_apology (env : CycleEnv) (stores : Stores)
    (conv : Conversation) (msg : String) (r : String)
    (h : runCycle env stores conv msg = CycleOutcome.failed r) :
    r = genericApology := by
  simp only [runCycle] at h
  split at h
  · cases h; rfl
  · cases h; rfl
  · exact clarifyStep_failed _ _ _ _ h
  · exact intentStep_failed _ _ _ _ _ _ h

/-- The invariant of claim C1 over one conversation record. -/
def StatusPendingInv (c : Conversation) : Prop :=
  (c.status = Status.AWAITING_SLOT) ↔ c.pendingSlot ≠ none

theorem runCycle_ok_inv (env : CycleEnv) (stores : Stores) (conv : Conversation)
    (msg : String) (conv' : Conversation) (r : String)
    (hc : StatusPendingInv conv)
    (h : runCycle env stores conv msg = CycleOutcome.ok conv' r) :
    StatusPendingInv conv' := by
  simp only [runCycle] at h
  split at h
  · exact (CycleOutcome.noConfusion h)
  · exact (CycleOutcome.noConfusion h)
  · unfold clarifyStep at h
    split at h
    · exact (CycleOutcome.noConfusion h)
    · cases h
      simpa [StatusPendingInv] using hc
  · unfold intentStep at h
    split at h
    · unfold promptStep at h
      split at h
      · exact (CycleOutcome.noConfusion h)
      · cases h
        simp [StatusPendingInv]
    · unfold executeStep at h
      split at h
      · exact (CycleOutcome.noConfusion h)
      · unfold frameStep at h
        split at h
        · exact (CycleOutcome.noConfusion h)
        · cases h
          simp [StatusPendingInv]
      · unfold frameStep at h
        split at h
        · exact (CycleOutcome.noConfusion h)
        · cases h
          simp [StatusPendingInv]

theorem runCycle_ok_slots (env : CycleEnv) (stores : Stores) (conv : Conversation)
    (msg : String) (e : IntentExtraction) (conv' : Conversation) (r : String)
    (hx : env.extract = ExtractResult.intent e)
    (h : runCycle env stores conv msg = CycleOutcome.ok conv' r) :
    conv'.slots = slotsAfterExtract conv e := by
  simp only [runCycle, hx] at h
  unfold intentStep at h
  split at h
  · unfold promptStep at h
    split at h
    · exact (CycleOutcome.noConfusion h)
    · cases h; rfl
  · unfold executeStep at h
    split at h
    · exact (CycleOutcome.noConfusion h)
    · unfold frameStep at h
      split at h
      · exact (CycleOutcome.noConfusion h)
      · cases h; rfl
    · unfold frameStep at h
      split at h
      · exact (CycleOutcome.noConfusion h)
      · cases h; rfl

theorem runCycle_ok_slots_noIntent (env : CycleEnv) (stores : Stores)
    (conv : Conversation) (msg : String) (conv' : Conversation) (r : String)
    (hx : env.extract = ExtractResult.noIntent)
    (h : runCycle env stores conv msg = CycleOutcome.ok conv' r) :
    conv'.slots = conv.slots := by
  simp only [runCycle, hx] at h
  unfold clarifyStep at h
  split at h
  · exact (CycleOutcome.noConfusion h)
  · cases h; rfl

/-! ## Reachable stores -/

/-- One orchestration step: the external oracles plus the addressed
conversation and the incoming text. -/
structure CycleInput where
  env : CycleEnv
  stores : Stores
  convId : String
  msg : String

/-- The store produced by a sequence of orchestration cycles starting
from the empty arena. -/
def runAll (steps : List CycleInput) : Store :=
  steps.foldl (fun st i => (handleMessage i.env i.stores st i.convId i.msg).1) []

theorem load_fresh_inv (id : String) : StatusPendingInv (freshConversation id) := by
  simp [StatusPendingInv, freshConversation]

theorem storeInv_step (st : Store)
    (hst : ∀ j, StatusPendingInv (load st j)) (i : CycleInput) :
    ∀ j, StatusPendingInv (load (handleMessage i.env i.stores st i.convId i.msg).1 j) := by
  intro j
  unfold handleMessage
  cases hrc : runCycle i.env i.stores (load st i.convId) i.msg with
  | failed r => exact hst j
  | ok conv' r =>
    show StatusPendingInv (load (upsertA st i.convId conv') j)
    unfold load
    rw [alookup_upsertA]
    by_cases hid : j = i.convId
    · rw [if_pos hid]
      exact runCycle_ok_inv _ _ _ _ _ _ (hst i.convId) hrc
    · rw [if_neg hid]
      exact hst j

theorem runAll_inv (steps : List CycleInput) (st : Store)
    (hst : ∀ j, StatusPendingInv (load st j)) (id : String) :
    StatusPendingInv
      (load (steps.foldl (fun s i => (handleMessage i.env i.stores s i.convId i.msg).1) st) id) := by
  induction steps generalizing st with
  | nil => exact hst id
  | cons i rest ih => exact ih _ (storeInv_step st hst i)

/-! ## Seeds and the Scenario B configuration -/

/-- The orders table seeded by the relational schema in the source
(INSERT INTO orders VALUES with order id id-857591726814891, user
user-123, status Packed), keyed by the order_id primary key. -/
def ordersSeed : List (String × Record) :=
  [("id-857591726814891",
    [("order_id", "id-857591726814891"), ("user_id", "user-123"), ("status", "Packed")])]

/-- Modelled from the spec: the knowledge-store policies keyed by status
value, giving the delivery estimate for a Packed order; the concrete
mongo seed JSON is not in the source tree. -/
def knowledgeSeed : List (String × Record) :=
  [("Packed", [("delivery_estimate", "3 working days")])]

def helloBotStores : Stores := ⟨ordersSeed, knowledgeSeed⟩

/-- Modelled from the spec: the get_order_status intent — one required
slot order_id, transactional source, query keyed by order_id. -/
def getOrderStatusIntent : IntentDefinition :=
  ⟨"get_order_status", ["order_id"], DataSource.transactional, "order_id"⟩

/-- The conversation at the end of Scenario A: intent detected, awaiting
the order_id slot. -/
def scenarioAConv : Conversation :=
  ⟨"conv-1",
   [⟨Role.user, "What is my order status?"⟩,
    ⟨Role.assistant, "Could you share your order id?"⟩],
   [], some getOrderStatusIntent, some "order_id", Status.AWAITING_SLOT⟩

/-- Modelled from the spec: the Scenario B cycle oracles — extraction
reads the order id out of the message, framing incorporates the status
field of the retrieved record, both stores reachable. -/
def scenarioBEnv : CycleEnv :=
  ⟨ExtractResult.intent ⟨getOrderStatusIntent, [("order_id", "id-857591726814891")]⟩,
   fun s => TextResult.ok ("Could you share your " ++ s ++ "?"),
   TextResult.ok "Could you restate that?",
   true, true,
   fun d =>
     match d with
     | FramingData.record r =>
       TextResult.ok ("Your order is " ++ (alookup r "status").getD "unknown" ++ ".")
     | FramingData.noData => TextResult.ok "I could not find that."⟩

/-- The conversation persisted at the end of Scenario B. -/
def scenarioBConvAfter : Conversation :=
  ⟨"conv-1",
   [⟨Role.user, "What is my order status?"⟩,
    ⟨Role.assistant, "Could you share your order id?"⟩,
    ⟨Role.user, "id-857591726814891"⟩,
    ⟨Role.assistant, "Your order is Packed."⟩],
   [("order_id", "id-857591726814891")],
   some getOrderStatusIntent, none, Status.COMPLETE⟩

/-! ## Conversation inspection read -/

/-- The snapshot served to the context panel: slots, active intent name
and the turn history. -/
structure Snapshot where
  slots : List (String × String)
  activeIntent : Option String
  turns : List Message
deriving DecidableEq, Repr

/-- Modelled from the spec: the conversation inspection read — returns
the snapshot of the stored conversation and leaves the store untouched
(the gateway GET route proxies it unchanged). -/
def inspect (store : Store) (id : String) : Store × Snapshot :=
  (store,
   ⟨(load store id).slots,
    (load store id).activeIntent.map IntentDefinition.name,
    (load store id).turns⟩)

/-! ## The API gateway (src/api-gateway/src/index.js) -/

/-- One structured log line written by the centralized error handler
(console.error with level, msg, error and stack fields). -/
structure LogEntry where
  level : String
  msg : String
  error : String
  stack : String
deriving DecidableEq, Repr

/-- A downstream HTTP response attached to a proxy error: status code and
body, either of which may be absent or falsy. -/
structure UpstreamResponse where
  status : Option Nat
  data : Option String
deriving DecidableEq, Repr

/-- A gateway error value: its message and stack, and the downstream
response when the failure came from the proxied orchestration service. -/
structure GatewayError where
  message : String
  stack : String
  response : Option UpstreamResponse
deriving DecidableEq, Repr

structure HttpResponse where
  status : Nat
  body : String
deriving DecidableEq, Repr

/-- The error field of the generic 500 JSON body. -/
def internalServerErrorBody : String := "Internal server error"

/-- The error field of the fallback body used when a downstream response
carries no data. -/
def upstreamServiceErrorBody : String := "Upstream service error"

/-- The centralized error handler of the gateway: logs the error message
and stack, then answers with the downstream status and body when the
error carries a response (with falsy-value fallbacks mirroring the JS or
operator), otherwise with a generic 500. -/
def errorHandler (err : GatewayError) : LogEntry × HttpResponse :=
  (⟨"error", "Unhandled error in API gateway", err.message, err.stack⟩,
   match err.response with
   | some r =>
     ⟨match r.status with
      | some s => if s = 0 then 500 else s
      | none => 500,
      match r.data with
      | some d => if d = "" then upstreamServiceErrorBody else d
      | none => upstreamServiceErrorBody⟩
   | none => ⟨500, internalServerErrorBody⟩)

/-- A chat request body as destructured by the gateway: each field either
absent or present with a string value. -/
structure ChatBody where
  conversation_id : Option String
  user_message : Option String
deriving DecidableEq, Repr

/-- JS truthiness of an optional string: absent and empty are falsy. -/
def truthy : Option String → Bool
  | none => false
  | some s => if s = "" then false else true

/-- What the POST /api/chat route does with a request: reject with a
status and error message, or forward the two fields to the orchestration
service. -/
inductive ChatAction
  | reject (status : Nat) (error : String)
  | forward (conversation_id : String) (user_message : String)
deriving DecidableEq, Repr

def requiredFieldsError : String := "conversation_id and user_message are required"

/-- The POST /api/chat handler of the gateway: destructures req.body
(defaulting to an empty object), rejects with 400 when either field is
falsy, otherwise forwards exactly the two fields downstream. -/
def chatHandler (body : Option ChatBody) : ChatAction :=
  if truthy (body.getD ⟨none, none⟩).conversation_id
      && truthy (body.getD ⟨none, none⟩).user_message then
    ChatAction.forward ((body.getD ⟨none, none⟩).conversation_id.getD "")
      ((body.getD ⟨none, none⟩).user_message.getD "")
  else ChatAction.reject 400 requiredFieldsError

/-- An inbound HTTP request as seen by the gateway middleware chain. -/
structure InboundRequest where
  method : String
  path : String
  headers : List (String × String)
  rawBody : Option String
deriving DecidableEq, Repr

structure AuthUser where
  id : String
  role : String
deriving DecidableEq, Repr

/-- The mock authentication middleware of the gateway: attaches a fixed
identity to every request without validating any credential. -/
def mockAuth (_req : InboundRequest) : AuthUser :=
  ⟨"user-123", "test-user"⟩

/-- Modelled from the spec: the transactional query issued for
get_order_status (SELECT status FROM orders WHERE order_id matches the
filled slot) — the WHERE clause is keyed only by order_id, so the
authenticated identity does not constrain the lookup. -/
def orderQuery (_u : AuthUser) (oid : String) : Option Record :=
  alookup ordersSeed oid

/-! ## Concrete cycle configurations used by the witnesses -/

/-- A completed conversation holding a filled order_id slot. -/
def cwConv : Conversation :=
  ⟨"c2", [], [("order_id", "id-1")], some getOrderStatusIntent, none, Status.COMPLETE⟩

/-- Oracles for a follow-up turn that re-detects the same intent. -/
def cwEnv : CycleEnv :=
  ⟨ExtractResult.intent ⟨getOrderStatusIntent, []⟩,
   fun s => TextResult.ok s, TextResult.ok "say again", true, true,
   fun _ => TextResult.ok "done"⟩

/-- The conversation persisted after the cwEnv follow-up turn. -/
def cwConvAfter : Conversation :=
  ⟨"c2", [⟨Role.user, "any update?"⟩, ⟨Role.assistant, "done"⟩],
   [("order_id", "id-1")], some getOrderStatusIntent, none, Status.COMPLETE⟩

/-- Oracles for a cycle in which the backing store is unreachable on the
first attempt and on the single retry. -/
def c3Env : CycleEnv :=
  ⟨ExtractResult.intent ⟨getOrderStatusIntent, [("order_id", "id-9")]⟩,
   fun s => TextResult.ok s, TextResult.ok "say again", false, false,
   fun _ => TextResult.ok "answer"⟩

/-- Oracles for a cycle whose transactional lookup finds no record. -/
def c4Env : CycleEnv :=
  ⟨ExtractResult.intent ⟨getOrderStatusIntent, [("order_id", "id-404")]⟩,
   fun s => TextResult.ok s, TextResult.ok "say again", true, true,
   fun d =>
     match d with
     | FramingData.record _ => TextResult.ok "found it"
     | FramingData.noData => TextResult.ok "I could not find that order."⟩

/-! ## Claim theorems -/

/-- C1: for every conversation state reachable by any sequence of
orchestration cycles starting from the empty store, the status equals
AWAITING_SLOT exactly when pendingSlot is non-null; the invariant holds
after every persisted transition of the controller state machine. -/
theorem awaiting_slot_iff_pending_slot (steps : List CycleInput) (id : String) :
    (load (runAll steps) id).status = Status.AWAITING_SLOT
      ↔ (load (runAll steps) id).pendingSlot ≠ none :=
  runAll_inv steps [] (fun j => load_fresh_inv j) id

/-- C2: in any completed slot-filling cycle, a previously filled slot is
never cleared, except when the detected intent changes to a new intent,
in which case it is kept exactly when its name is a required slot of the
new intent. -/
theorem filled_slots_persist (env : CycleEnv) (stores : Stores)
    (conv : Conversation) (msg : String) (conv' : Conversation) (r : String)
    (k : String)
    (hok : runCycle env stores conv msg = CycleOutcome.ok conv' r)
    (hfilled : (alookup conv.slots k).isSome = true) :
    (alookup conv'.slots k).isSome =
      (match env.extract with
       | ExtractResult.intent e =>
         if intentChanged conv e.intent then e.intent.requiredSlots.contains k
         else true
       | _ => true) := by
  cases hx : env.extract with
  | intent e =>
    rw [runCycle_ok_slots env stores conv msg e conv' r hx hok]
    exact slotsAfterExtract_keeps conv e k hfilled
  | noIntent =>
    rw [runCycle_ok_slots_noIntent env stores conv msg conv' r hx hok]
    exact hfilled
  | timeout =>
    simp only [runCycle, hx] at hok
    exact (CycleOutcome.noConfusion hok)
  | malformed =>
    simp only [runCycle, hx] at hok
    exact (CycleOutcome.noConfusion hok)

/-- C2 witness: the follow-up turn of cwEnv keeps the filled order_id. -/
theorem filled_slots_persist_witness :
    (alookup cwConvAfter.slots "order_id").isSome =
      (match cwEnv.extract with
       | ExtractResult.intent e =>
         if intentChanged cwConv e.intent then e.intent.requiredSlots.contains "order_id"
         else true
       | _ => true) :=
  filled_slots_persist cwEnv helloBotStores cwConv "any update?" cwConvAfter "done"
    "order_id" rfl rfl

/-- C3: any adapter or router failure (extraction timeout, malformed
extraction, or source unavailable after its single retry) leaves the
persisted store exactly as it was before the cycle and answers with the
generic apology. -/
theorem failure_preserves_state (env : CycleEnv) (stores : Stores)
    (store : Store) (id : String) (msg : String) (r : String)
    (h : runCycle env stores (load store id) msg = CycleOutcome.failed r) :
    handleMessage env stores store id msg = (store, r) ∧ r = genericApology := by
  constructor
  · unfold handleMessage
    rw [h]
  · exact runCycle_failed_apology _ _ _ _ _ h

/-- C3 witness: the store stays empty and the caller gets the apology
when the backing source is unavailable on both attempts. -/
theorem failure_preserves_state_witness :
    handleMessage c3Env helloBotStores [] "c3" "where is my order" = ([], genericApology)
    ∧ genericApology = genericApology :=
  failure_preserves_state c3Env helloBotStores [] "c3" "where is my order"
    genericApology rfl

/-- C4: when all required slots are filled and the router returns
NotFound, the controller treats it as a normal outcome: the answer is
framed over the explicit no-data marker, status becomes COMPLETE, and
the mutation is persisted. -/
theorem notFound_completes (env : CycleEnv) (stores : Stores) (store : Store)
    (id : String) (msg : String) (e : IntentExtraction) (t : String)
    (hx : env.extract = ExtractResult.intent e)
    (hmiss : missingSlots e.intent (slotsAfterExtract (load store id) e) = [])
    (hav : env.avail1 = true)
    (hlook : routeLookup stores e.intent (slotsAfterExtract (load store id) e) = none)
    (hframe : env.frame FramingData.noData = TextResult.ok t) :
    ∃ conv',
      runCycle env stores (load store id) msg = CycleOutcome.ok conv' t
      ∧ conv'.status = Status.COMPLETE
      ∧ conv'.slots = slotsAfterExtract (load store id) e
      ∧ handleMessage env stores store id msg = (upsertA store id conv', t) := by
  have hrun : runCycle env stores (load store id) msg =
      CycleOutcome.ok { load store id with
        turns := (load store id).turns ++ [userMsg msg, assistantMsg t]
        slots := slotsAfterExtract (load store id) e
        activeIntent := some e.intent
        pendingSlot := none
        status := Status.COMPLETE } t := by
    simp only [runCycle, hx, intentStep, hmiss]
    simp [executeStep, hlook, hav, fetchWithRetry, frameStep, hframe]
  exact ⟨_, hrun, rfl, rfl, by unfold handleMessage; rw [hrun]⟩

/-- C4 witness: the unknown order id-404 completes the cycle with the
no-data framing persisted. -/
theorem notFound_completes_witness :
    ∃ conv',
      runCycle c4Env helloBotStores (load [] "c4") "where is order id-404"
        = CycleOutcome.ok conv' "I could not find that order."
      ∧ conv'.status = Status.COMPLETE
      ∧ conv'.slots = slotsAfterExtract (load [] "c4")
          ⟨getOrderStatusIntent, [("order_id", "id-404")]⟩
      ∧ handleMessage c4Env helloBotStores [] "c4" "where is order id-404"
        = (upsertA [] "c4" conv', "I could not find that order.") :=
  notFound_completes c4Env helloBotStores [] "c4" "where is order id-404"
    ⟨getOrderStatusIntent, [("order_id", "id-404")]⟩ "I could not find that order."
    rfl rfl rfl rfl rfl

/-- C5: the seeded transactional lookup keyed by order id
id-857591726814891 returns the record whose status field is Packed, and
the Scenario B cycle that fills the slot frames a response mentioning
Packed, reaches COMPLETE, and persists the order_id slot. -/
theorem scenarioB_packed :
    (alookup ordersSeed "id-857591726814891").bind (fun r => alookup r "status")
      = some "Packed"
    ∧ runCycle scenarioBEnv helloBotStores scenarioAConv "id-857591726814891"
      = CycleOutcome.ok scenarioBConvAfter ("Your order is " ++ "Packed" ++ ".")
    ∧ scenarioBConvAfter.status = Status.COMPLETE
    ∧ alookup scenarioBConvAfter.slots "order_id" = some "id-857591726814891"
    ∧ (handleMessage scenarioBEnv helloBotStores [("conv-1", scenarioAConv)]
        "conv-1" "id-857591726814891").1 = [("conv-1", scenarioBConvAfter)] :=
  ⟨rfl, rfl, rfl, rfl, rfl⟩

/-- C6 counterexample: an error carrying a downstream response body is
forwarded verbatim to the user, so a failing request does not always
receive the single generic failure response. -/
theorem error_detail_forwarded_cex :
    (errorHandler ⟨"Request failed with status code 500", "axios stack frames",
        some ⟨some 500, some "KeyError in orchestrator at line 42"⟩⟩).2.body
      = "KeyError in orchestrator at line 42"
    ∧ ¬ (errorHandler ⟨"Request failed with status code 500", "axios stack frames",
        some ⟨some 500, some "KeyError in orchestrator at line 42"⟩⟩).2.body
      = internalServerErrorBody :=
  ⟨rfl, by decide⟩

/-- C6 amended: the gateway logs the error message and stack for
observability in every case; an error without a downstream response is
answered with the generic 500 body; and an error carrying a downstream
response is answered with the downstream status (defaulting to 500 when
the status is absent or zero, mirroring the JS falsy test) and with the
downstream body forwarded verbatim (defaulting to the generic upstream
body when the data is absent or empty) — so the user-facing response is
determined entirely by the downstream response, never by the gateway
message or stack. -/
theorem error_handler_boundary (err : GatewayError) :
    (errorHandler err).1
      = ⟨"error", "Unhandled error in API gateway", err.message, err.stack⟩
    ∧ (err.response = none → (errorHandler err).2 = ⟨500, internalServerErrorBody⟩)
    ∧ (∀ u, err.response = some u →
        (errorHandler err).2.status
          = (match u.status with
             | some s => if s = 0 then 500 else s
             | none => 500)
        ∧ (errorHandler err).2.body
          = (match u.data with
             | some d => if d = "" then upstreamServiceErrorBody else d
             | none => upstreamServiceErrorBody)) := by
  refine ⟨rfl, ?_, ?_⟩
  · intro hr
    simp [errorHandler, hr]
  · intro u hr
    exact ⟨by simp [errorHandler, hr], by simp [errorHandler, hr]⟩

/-- C6 amended witness: a downstream 502 with a body is forwarded with
that status and body, and a response-free error gets the generic 500. -/
theorem error_handler_boundary_witness :
    (errorHandler ⟨"boom", "axios trace", some ⟨some 502, some "upstream detail"⟩⟩).2.status
      = 502
    ∧ (errorHandler ⟨"boom", "axios trace", some ⟨some 502, some "upstream detail"⟩⟩).2.body
      = "upstream detail"
    ∧ (errorHandler ⟨"boom", "axios trace", none⟩).2 = ⟨500, internalServerErrorBody⟩ := by
  have h1 := (error_handler_boundary
      ⟨"boom", "axios trace", some ⟨some 502, some "upstream detail"⟩⟩).2.2
      ⟨some 502, some "upstream detail"⟩ rfl
  have h2 := (error_handler_boundary ⟨"boom", "axios trace", none⟩).2.1 rfl
  exact ⟨by simpa using h1.1, by simpa using h1.2, h2⟩

/-- C7: the inspection read is pure — it leaves the store unchanged and a
repeated call returns the identical snapshot — and after an orchestration
cycle it reflects exactly the persisted result of the completed cycle,
while an aborted cycle leaves the snapshot untouched. -/
theorem inspection_read_pure (store : Store) (id : String) :
    (inspect store id).1 = store
    ∧ (inspect (inspect store id).1 id).2 = (inspect store id).2
    ∧ ∀ (env : CycleEnv) (stores : Stores) (msg : String),
        (inspect (handleMessage env stores store id msg).1 id).2 =
          match runCycle env stores (load store id) msg with
          | CycleOutcome.ok conv' _ =>
            ⟨conv'.slots, conv'.activeIntent.map IntentDefinition.name, conv'.turns⟩
          | CycleOutcome.failed _ => (inspect store id).2 := by
  refine ⟨rfl, rfl, ?_⟩
  intro env stores msg
  unfold handleMessage
  cases h : runCycle env stores (load store id) msg with
  | ok conv' r =>
    have hload : load (upsertA store id conv') id = conv' := by
      unfold load
      rw [alookup_upsertA, if_pos rfl]
    simp [inspect, hload]
  | failed r => rfl

/-- C9: a chat request whose body is absent or misses conversation_id or
user_message is rejected with status 400 and the fixed error message;
the action is a rejection, so nothing is forwarded to the orchestration
service. -/
theorem chat_missing_fields_rejected (body : Option ChatBody)
    (h : body = none
      ∨ (body.getD ⟨none, none⟩).conversation_id = none
      ∨ (body.getD ⟨none, none⟩).user_message = none) :
    chatHandler body = ChatAction.reject 400 requiredFieldsError := by
  unfold chatHandler
  rcases h with h | h | h
  · subst h; rfl
  · rw [h]
    simp [truthy]
  · rw [h]
    simp [truthy]

/-- C9 witness: a body without user_message is rejected with the 400. -/
theorem chat_missing_fields_rejected_witness :
    chatHandler (some ⟨some "conv-1", none⟩) = ChatAction.reject 400 requiredFieldsError :=
  chat_missing_fields_rejected (some ⟨some "conv-1", none⟩) (Or.inr (Or.inr rfl))

/-- C10: the authentication middleware attaches the same fixed identity
to every request regardless of its contents, and the transactional order
lookup is keyed only by the caller-supplied order id — any authenticated
identity retrieves the seeded order row owned by user-123. -/
theorem auth_identity_fixed (req₁ req₂ : InboundRequest) (u₁ u₂ : AuthUser)
    (oid : String) :
    mockAuth req₁ = ⟨"user-123", "test-user"⟩
    ∧ mockAuth req₁ = mockAuth req₂
    ∧ orderQuery u₁ oid = orderQuery u₂ oid
    ∧ (orderQuery u₁ "id-857591726814891").bind (fun r => alookup r "user_id")
      = some "user-123" :=
  ⟨rfl, rfl, rfl, rfl⟩

end HelloBot
